import Mathlib

/-!
Verification of the WagerWise entitlement and billing-event code.

The definitions below are a shallow embedding of the Python source:
  * `User`, `StripeEvent` embed the SQLAlchemy models of `models.py`
    (the columns the entitlement and billing logic reads or writes);
    timestamps are `Nat` (seconds), the integral counter is `Int` as in
    the source, statuses and event types are the literal strings the
    source compares against.
  * `has_active_subscription`, `can_use_preview`, `has_analysis_access`,
    `get_remaining_requests` embed the `User` methods of `models.py`.
  * `handle_webhook` embeds `StripeManager.handle_webhook` of `auth.py`;
    the database session is passed explicitly as `DB`, and the flag
    `storeFails` injects a failure of the second `db.session.commit()`
    (the event-store write), after which the handler re-raises.
  * `tryConsumePreview` embeds the guarded increment
    `if current_user.can_use_preview(): current_user.free_preview_used += 1`
    shared by the two analysis endpoints of `app.py`; `analyze_all_bets`
    and `analyze_specific_bet` embed those endpoints, with `commitFails`
    injecting a failure of `db.session.commit()` followed by the
    source's `db.session.rollback()` (which discards the uncommitted
    in-session increment).
-/

namespace WagerWise

/-- The `users` row of `models.py`, restricted to the columns the
entitlement evaluator and the billing-event processor read or write. -/
structure User where
  is_active : Bool
  stripe_customer_id : Option String
  stripe_subscription_id : Option String
  subscription_status : String
  subscription_start_date : Option Nat
  subscription_end_date : Option Nat
  free_preview_used : Int
  trial_ends_at : Option Nat
deriving DecidableEq, Repr

/-- The payload fields of a Stripe event object (`event['data']['object']`)
that `handle_webhook` reads. -/
structure EventData where
  metadata_user_id : Option String
  current_period_end : Nat
deriving DecidableEq, Repr

/-- An incoming Stripe webhook event: `event['id']`, `event['type']`,
the source-attributed timestamp `created` (the spec's `occurredAt`,
present on every Stripe event) and `event['data']['object']`. -/
structure WebhookEvent where
  id : String
  eventType : String
  created : Nat
  data_object : EventData
deriving DecidableEq, Repr

/-- The `stripe_events` row of `models.py`. -/
structure StripeEvent where
  stripe_event_id : String
  event_type : String
  user_id : Option String
  event_data : EventData
  processed : Bool
deriving DecidableEq, Repr

/-- The persisted state the webhook handler touches: the `users` table
(keyed by `User.id`) and the `stripe_events` table. -/
structure DB where
  users : List (String × User)
  stripe_events : List StripeEvent
deriving DecidableEq, Repr

/-- `User.query.get(uid)`. -/
def DB.findUser (d : DB) (uid : String) : Option User :=
  (d.users.find? (fun p => p.1 == uid)).map Prod.snd

/-- `StripeEvent.query.filter_by(stripe_event_id=eid).first()`. -/
def DB.findEvent (d : DB) (eid : String) : Option StripeEvent :=
  d.stripe_events.find? (fun r => r.stripe_event_id == eid)

/-- Write back a mutated user row under its key. -/
def setUserList (l : List (String × User)) (uid : String) (u : User) :
    List (String × User) :=
  l.map (fun p => if p.1 == uid then (uid, u) else p)

/-- Committing a mutation of the user row `uid`. -/
def DB.setUser (d : DB) (uid : String) (u : User) : DB :=
  { d with users := setUserList d.users uid u }

/-- `User.has_active_subscription` (models.py lines 53-57): status is
`'active'`, the end date is set, and it is strictly in the future. -/
def has_active_subscription (u : User) (now : Nat) : Bool :=
  if u.subscription_status == "active" then
    match u.subscription_end_date with
    | some endDate => decide (endDate > now)
    | none => false
  else false

/-- `User.can_use_preview` (models.py lines 59-61). -/
def can_use_preview (u : User) : Bool :=
  decide (u.free_preview_used < 1) && u.subscription_status == "trial"

/-- `User.has_analysis_access` (models.py lines 63-65). -/
def has_analysis_access (u : User) (now : Nat) : Bool :=
  u.is_active && (has_active_subscription u now || can_use_preview u)

/-- The value space of `User.get_remaining_requests`: `float('inf')`
or an integer. -/
inductive Remaining where
  | unbounded : Remaining
  | fin : Int → Remaining
deriving DecidableEq, Repr

/-- `User.get_remaining_requests` (models.py lines 67-73). -/
def get_remaining_requests (u : User) (now : Nat) : Remaining :=
  if has_active_subscription u now then Remaining.unbounded
  else if can_use_preview u then Remaining.fin (1 - u.free_preview_used)
  else Remaining.fin 0

/-- The guarded preview consumption inlined in both analysis endpoints
(app.py lines 175-176 and 212-213):
`if current_user.can_use_preview(): current_user.free_preview_used += 1`,
returned together with whether the grant fired. -/
def tryConsumePreview (u : User) : Bool × User :=
  if can_use_preview u then
    (true, { u with free_preview_used := u.free_preview_used + 1 })
  else (false, u)

/-- The claim's access formula, written from the spec's words
(spec §4.1): `(subscriptionStatus == active AND subscriptionEnd > now)
OR (subscriptionStatus == trial AND previewUsedCount < 1)`. Used to
compare the spec's contract with the code's `has_analysis_access`. -/
def claimAccessFormula (u : User) (now : Nat) : Bool :=
  (u.subscription_status == "active" &&
    (match u.subscription_end_date with
     | some endDate => decide (endDate > now)
     | none => false))
  || (u.subscription_status == "trial" && decide (u.free_preview_used < 1))

/-- The claim's `remaining` contract, written from the spec's words
(spec §4.1): unbounded under the active branch, `1 - previewUsedCount`
under the trial branch, `0` otherwise. -/
def claimRemainingSpec (u : User) (now : Nat) : Remaining :=
  if u.subscription_status == "active" &&
      (match u.subscription_end_date with
       | some endDate => decide (endDate > now)
       | none => false) then
    Remaining.unbounded
  else if u.subscription_status == "trial" && decide (u.free_preview_used < 1) then
    Remaining.fin (1 - u.free_preview_used)
  else Remaining.fin 0

/-- A trial user fresh from registration (app.py lines 83-89):
`is_active=True`, `subscription_status='trial'`, counter at its
column default `0`, `trial_ends_at = now + 7 days`. -/
def register_user (now : Nat) : User :=
  { is_active := true
    stripe_customer_id := none
    stripe_subscription_id := none
    subscription_status := "trial"
    subscription_start_date := none
    subscription_end_date := none
    free_preview_used := 0
    trial_ends_at := some (now + 7 * 24 * 60 * 60) }

/-- The value `StripeManager.handle_webhook` produces, seen from the
caller: the early-return `None` on a duplicate event, `True` on the
normal path, or a re-raised exception when a commit fails. -/
inductive WResult where
  | retNone : WResult
  | retTrue : WResult
  | raised : WResult
deriving DecidableEq, Repr

/-- The three event types `handle_webhook` dispatches on. -/
def handledType (t : String) : Bool :=
  t == "customer.subscription.updated" ||
    t == "customer.subscription.deleted" ||
      t == "invoice.payment_succeeded"

/-- The per-branch account mutation of `handle_webhook` (auth.py lines
125-150): `customer.subscription.updated` sets status `'active'` and
the end date to the payload's `current_period_end`;
`customer.subscription.deleted` sets status `'cancelled'` (and touches
nothing else); `invoice.payment_succeeded` sets status `'active'`
(and touches nothing else); every other type mutates nothing. -/
def applyEventToUser (e : WebhookEvent) (u : User) : User :=
  if e.eventType == "customer.subscription.updated" then
    { u with subscription_status := "active"
             subscription_end_date := some e.data_object.current_period_end }
  else if e.eventType == "customer.subscription.deleted" then
    { u with subscription_status := "cancelled" }
  else if e.eventType == "invoice.payment_succeeded" then
    { u with subscription_status := "active" }
  else u

/-- The correlation step shared by the three branches of
`handle_webhook`: read `metadata['user_id']` from the payload and look
the user up; `none` when the type is unhandled, the key is missing, or
no user matches. -/
def lookupTarget (d : DB) (e : WebhookEvent) : Option (String × User) :=
  if handledType e.eventType then
    match e.data_object.metadata_user_id with
    | some uid =>
      match d.findUser uid with
      | some u => some (uid, u)
      | none => none
    | none => none
  else none

/-- The `users` table after the branch dispatch of `handle_webhook`
(auth.py lines 125-150): the correlated user row, if any, is mutated
per the event type and committed (the branch's `db.session.commit()`);
otherwise the table is untouched. -/
def webhookUsers (d : DB) (e : WebhookEvent) : List (String × User) :=
  match lookupTarget d e with
  | some (uid, u) => setUserList d.users uid (applyEventToUser e u)
  | none => d.users

/-- The `StripeEvent` row `handle_webhook` inserts (auth.py lines
153-159): `user_id = user.id if user else None`, `processed=True`. -/
def storedRow (d : DB) (e : WebhookEvent) : StripeEvent :=
  { stripe_event_id := e.id
    event_type := e.eventType
    user_id := (lookupTarget d e).map Prod.fst
    event_data := e.data_object
    processed := true }

/-- `StripeManager.handle_webhook` (auth.py lines 107-168). Dedup by
`stripe_event_id` (early return `None` on any stored row); on a fresh
event, the matched branch mutates the user row and commits (first
`db.session.commit()`, captured by `webhookUsers`), then the event row
is inserted with `processed=True` and committed (second commit). The
flag `storeFails` injects a failure of that second commit: the handler
then re-raises with the first commit already durable. -/
def handle_webhook (storeFails : Bool) (e : WebhookEvent) (d : DB) : WResult × DB :=
  match d.findEvent e.id with
  | some _ => (WResult.retNone, d)
  | none =>
    if storeFails then (WResult.raised, { d with users := webhookUsers d e })
    else
      (WResult.retTrue,
        { users := webhookUsers d e
          stripe_events := d.stripe_events ++ [storedRow d e] })

/-- The HTTP outcome of an analysis endpoint: 403, 400, 202, or the
500 path after `db.session.rollback()`. -/
inductive AnalyzeRet where
  | unauthorized : AnalyzeRet
  | badRequest : AnalyzeRet
  | analysisCreated : AnalyzeRet
  | failed : AnalyzeRet
deriving DecidableEq, Repr

/-- `analyze_all_bets` (app.py lines 168-194), reduced to its effect on
the current user row: access check, in-session guarded preview
increment, then one commit persisting the increment together with the
new `BetAnalysis` row. `commitFails` injects a commit failure; the
`except` branch rolls the session back, discarding the uncommitted
increment. Returns (HTTP outcome, persisted user row, whether a
`BetAnalysis` row was persisted). -/
def analyze_all_bets (commitFails : Bool) (u : User) (now : Nat) :
    AnalyzeRet × User × Bool :=
  if !(has_analysis_access u now) then (AnalyzeRet.unauthorized, u, false)
  else
    let u1 : User :=
      if can_use_preview u then
        { u with free_preview_used := u.free_preview_used + 1 }
      else u
    if commitFails then (AnalyzeRet.failed, u, false)
    else (AnalyzeRet.analysisCreated, u1, true)

/-- `analyze_specific_bet` (app.py lines 197-234): same shape as
`analyze_all_bets` with a 400 field-validation gate (`fieldsPresent`)
before the preview increment. -/
def analyze_specific_bet (commitFails fieldsPresent : Bool) (u : User) (now : Nat) :
    AnalyzeRet × User × Bool :=
  if !(has_analysis_access u now) then (AnalyzeRet.unauthorized, u, false)
  else if !fieldsPresent then (AnalyzeRet.badRequest, u, false)
  else
    let u1 : User :=
      if can_use_preview u then
        { u with free_preview_used := u.free_preview_used + 1 }
      else u
    if commitFails then (AnalyzeRet.failed, u, false)
    else (AnalyzeRet.analysisCreated, u1, true)

/-- An account that refutes claim C3: deactivated (`is_active=False`)
but with a live paid subscription. -/
def uC3 : User :=
  { is_active := false
    stripe_customer_id := some "cus_1"
    stripe_subscription_id := some "sub_1"
    subscription_status := "active"
    subscription_start_date := some 0
    subscription_end_date := some 100
    free_preview_used := 0
    trial_ends_at := none }

/-- An account that refutes claim C4: `free_preview_used = 0` but not
on the trial status. -/
def uC4 : User :=
  { is_active := true
    stripe_customer_id := some "cus_2"
    stripe_subscription_id := some "sub_2"
    subscription_status := "active"
    subscription_start_date := some 0
    subscription_end_date := some 100
    free_preview_used := 0
    trial_ends_at := none }

/-- A one-user database: the fresh trial account `u1`. -/
def dTrial : DB := { users := [("u1", register_user 0)], stripe_events := [] }

/-- A `customer.subscription.updated` event for `u1` with the later
source timestamp (`created = 10`, the spec's `occurredAt = t1`) and
period end `100`. -/
def e1Upd : WebhookEvent :=
  { id := "evt_1"
    eventType := "customer.subscription.updated"
    created := 10
    data_object := { metadata_user_id := some "u1", current_period_end := 100 } }

/-- A `customer.subscription.updated` event for `u1` with the earlier
source timestamp (`created = 5`, the spec's `occurredAt = t2 < t1`) and
period end `50`. -/
def e2Upd : WebhookEvent :=
  { id := "evt_2"
    eventType := "customer.subscription.updated"
    created := 5
    data_object := { metadata_user_id := some "u1", current_period_end := 50 } }

/-- An active paid account whose subscription runs until time `77`. -/
def uActive77 : User :=
  { is_active := true
    stripe_customer_id := some "cus_3"
    stripe_subscription_id := some "sub_3"
    subscription_status := "active"
    subscription_start_date := some 1
    subscription_end_date := some 77
    free_preview_used := 0
    trial_ends_at := none }

/-- A one-user database holding the active account `uActive77`. -/
def dActive : DB := { users := [("u1", uActive77)], stripe_events := [] }

/-- A `customer.subscription.deleted` event for `u1`, received at a
time (say `200`) well past the stored end date `77`. -/
def eDel : WebhookEvent :=
  { id := "evt_del"
    eventType := "customer.subscription.deleted"
    created := 200
    data_object := { metadata_user_id := some "u1", current_period_end := 0 } }

/-- An authentic event whose `metadata['user_id']` matches no user of
`dTrial`: a correlation miss. -/
def eGhost : WebhookEvent :=
  { id := "evt_ghost"
    eventType := "invoice.payment_succeeded"
    created := 3
    data_object := { metadata_user_id := some "ghost", current_period_end := 0 } }

/-- Claim C3 counterexample: at `now = 0` the account `uC3` satisfies
the claim's access formula (`active` with `subscriptionEnd = 100 > 0`),
yet `has_analysis_access` returns `false`, because the code also
requires the `is_active` flag, which the claim says does not influence
the result. -/
theorem hasAccess_claim_counterexample :
    claimAccessFormula uC3 0 = true ∧ has_analysis_access uC3 0 = false := by
  decide

/-- Claim C3 as amended: `has_analysis_access u now` equals the claim's
formula conjoined with the account's `is_active` flag — the extra field
`is_active` does influence the result; nothing else changes. -/
theorem hasAccess_amended (u : User) (now : Nat) :
    has_analysis_access u now = (u.is_active && claimAccessFormula u now) := by
  unfold has_analysis_access claimAccessFormula has_active_subscription can_use_preview
  cases h : u.subscription_status == "active" <;>
    cases u.subscription_end_date <;>
      simp [h, Bool.and_comm]

/-- Claim C4 counterexample: `uC4` has `free_preview_used = 0`, yet the
guarded increment does not fire (`granted = false`), because the code
additionally requires `subscription_status == 'trial'`. -/
theorem tryConsumePreview_claim_counterexample :
    uC4.free_preview_used = 0 ∧ (tryConsumePreview uC4).1 = false := by
  decide

/-- Claim C4 as amended: the preview consumption succeeds iff
`free_preview_used < 1` AND `subscription_status == 'trial'` (not on
the counter alone), and on success the counter is incremented by one
(from `0` it becomes `1`). -/
theorem tryConsumePreview_amended (u : User) :
    ((tryConsumePreview u).1 = true ↔
      (u.free_preview_used < 1 ∧ u.subscription_status = "trial"))
    ∧ ((tryConsumePreview u).1 = true →
        (tryConsumePreview u).2.free_preview_used = u.free_preview_used + 1)
    ∧ ((tryConsumePreview u).1 = false → (tryConsumePreview u).2 = u) := by
  unfold tryConsumePreview can_use_preview
  constructor
  · by_cases h1 : u.free_preview_used < 1 <;>
      by_cases h2 : u.subscription_status = "trial" <;>
      simp [h1, h2]
  · constructor
    · intro h
      by_cases h1 : u.free_preview_used < 1 <;>
        by_cases h2 : u.subscription_status = "trial" <;>
        simp [h1, h2] at h ⊢
    · intro h
      by_cases h1 : u.free_preview_used < 1 <;>
        by_cases h2 : u.subscription_status = "trial" <;>
        simp [h1, h2] at h ⊢

/-- Witness for the amended C4 theorem at the fresh trial account: the
grant fires and the counter moves from `0` to `1`. -/
theorem tryConsumePreview_amended_witness :
    (tryConsumePreview (register_user 0)).2.free_preview_used =
      (register_user 0).free_preview_used + 1 :=
  (tryConsumePreview_amended (register_user 0)).2.1 (by decide)

/-- Claim C9 confirmed: `get_remaining_requests` agrees with the spec's
`remaining` contract everywhere — unbounded exactly on the live active
branch, `1 - previewUsedCount` on the trial branch, `0` otherwise
(in particular `0` for an `active` status whose end date has passed). -/
theorem remaining_contract (u : User) (now : Nat) :
    get_remaining_requests u now = claimRemainingSpec u now := by
  unfold get_remaining_requests claimRemainingSpec has_active_subscription can_use_preview
  cases u.subscription_end_date <;>
    simp [Bool.and_comm]

/-- Replacing the row keyed `uid` rewrites exactly the first `find?`
hit for that key. -/
theorem find?_setUserList_self (l : List (String × User)) (uid : String) (u : User) :
    (setUserList l uid u).find? (fun p => p.1 == uid) =
      (l.find? (fun p => p.1 == uid)).map (fun _ => (uid, u)) := by
  induction l with
  | nil => rfl
  | cons a t ih =>
    by_cases h : (a.1 == uid) = true
    · have h' : a.1 = uid := by simpa using h
      simp only [setUserList, List.map_cons, if_pos h, List.find?_cons, h, h']
      simp
    · simp only [setUserList, List.map_cons, if_neg h, List.find?_cons]
      rw [show ((a.1 == uid) : Bool) = false from by simpa using h]
      simpa [setUserList] using ih

/-- Looking the key back up after a write-back yields the written row. -/
theorem findUser_after_set (l : List (String × User)) (uid : String) (u v : User)
    (h : (l.find? (fun p => p.1 == uid)).map Prod.snd = some v) :
    ((setUserList l uid u).find? (fun p => p.1 == uid)).map Prod.snd = some u := by
  rw [find?_setUserList_self]
  cases hq : l.find? (fun p => p.1 == uid) with
  | none => rw [hq] at h; simp at h
  | some a => simp

/-- A duplicate delivery short-circuits: any stored row with the same
`stripe_event_id` makes `handle_webhook` return `None` untouched. -/
theorem handle_webhook_dup (sf : Bool) (e : WebhookEvent) (d : DB) (r : StripeEvent)
    (hf : d.findEvent e.id = some r) :
    handle_webhook sf e d = (WResult.retNone, d) := by
  unfold handle_webhook
  rw [hf]

/-- The success path of `handle_webhook` on a fresh event. -/
theorem handle_webhook_fresh_ok (e : WebhookEvent) (d : DB)
    (hf : d.findEvent e.id = none) :
    handle_webhook false e d =
      (WResult.retTrue,
        { users := webhookUsers d e
          stripe_events := d.stripe_events ++ [storedRow d e] }) := by
  unfold handle_webhook
  rw [hf]
  rfl

/-- The store-write-failure path of `handle_webhook` on a fresh event:
the user mutation is already committed, the event row is not. -/
theorem handle_webhook_fresh_storeFail (e : WebhookEvent) (d : DB)
    (hf : d.findEvent e.id = none) :
    handle_webhook true e d = (WResult.raised, { d with users := webhookUsers d e }) := by
  unfold handle_webhook
  rw [hf]
  rfl

/-- When the event correlates to an existing user, the branch mutation
is a write-back of `applyEventToUser`. -/
theorem webhookUsers_of_target (d : DB) (uid : String) (u : User) (e : WebhookEvent)
    (ht : handledType e.eventType = true)
    (hm : e.data_object.metadata_user_id = some uid)
    (hu : d.findUser uid = some u) :
    webhookUsers d e = setUserList d.users uid (applyEventToUser e u) := by
  unfold webhookUsers lookupTarget
  simp [ht, hm, hu]

/-- When no user correlates, the branch dispatch leaves the users
table untouched and the stored row carries no user id. -/
theorem lookupTarget_of_miss (d : DB) (e : WebhookEvent)
    (hm : ∀ uid, e.data_object.metadata_user_id = some uid → d.findUser uid = none) :
    lookupTarget d e = none := by
  unfold lookupTarget
  cases ht : handledType e.eventType
  · simp
  · cases hmm : e.data_object.metadata_user_id with
    | none => simp
    | some uid => simp [hm uid hmm]

/-- Claim C2 confirmed: replaying the same event is a no-op success.
Whatever the first call did, the second call on the identical event
finds the stored (or pre-existing) row, returns the early-out `None`
(not an exception), mutates no account and stores no second row: the
database after the replay is exactly the database after one call. -/
theorem webhook_idempotent_replay (e : WebhookEvent) (d : DB) :
    handle_webhook false e (handle_webhook false e d).2 =
      (WResult.retNone, (handle_webhook false e d).2) := by
  cases hf : d.findEvent e.id with
  | some r =>
    have h1 : handle_webhook false e d = (WResult.retNone, d) :=
      handle_webhook_dup false e d r hf
    have hfB : (handle_webhook false e d).2.findEvent e.id = some r := by
      rw [h1]; exact hf
    exact handle_webhook_dup false e _ r hfB
  | none =>
    have h1 := handle_webhook_fresh_ok e d hf
    have hfB : (handle_webhook false e d).2.findEvent e.id = some (storedRow d e) := by
      rw [h1]
      simp only [DB.findEvent] at hf ⊢
      rw [List.find?_append, hf]
      simp [storedRow]
    exact handle_webhook_dup false e _ _ hfB

/-- Claim C1 counterexample: `e1Upd` (`occurredAt = 10`, period end
`100`) then `e2Upd` (`occurredAt = 5`, period end `50`) leaves the
account with end date `50` — governed by the *earlier*-occurring event
`e2Upd`, because `handle_webhook` never reads `created` — while the
opposite receipt order leaves end date `100`: the two orders disagree,
and the state is not governed by the later-occurring event. -/
theorem webhook_order_counterexample :
    ((handle_webhook false e2Upd (handle_webhook false e1Upd dTrial).2).2.findUser "u1" ≠
      (handle_webhook false e1Upd (handle_webhook false e2Upd dTrial).2).2.findUser "u1")
    ∧ ((handle_webhook false e2Upd (handle_webhook false e1Upd dTrial).2).2.findUser
        "u1").map User.subscription_end_date = some (some 50) := by
  decide

/-- Claim C1 as amended: with distinct fresh event ids targeting the
same existing account, the final account is governed by the event
applied *last in receipt order* (`applyEventToUser e2 ∘ applyEventToUser
e1`), not by the later `occurredAt`; both events do end up stored with
`processed = true`. -/
theorem webhook_receipt_order_wins (d : DB) (uid : String) (u : User)
    (e1 e2 : WebhookEvent)
    (hu : d.findUser uid = some u)
    (ht1 : handledType e1.eventType = true)
    (ht2 : handledType e2.eventType = true)
    (hm1 : e1.data_object.metadata_user_id = some uid)
    (hm2 : e2.data_object.metadata_user_id = some uid)
    (hf1 : d.findEvent e1.id = none)
    (hf2 : d.findEvent e2.id = none)
    (hne : e1.id ≠ e2.id) :
    ((handle_webhook false e2 (handle_webhook false e1 d).2).2.findUser uid =
      some (applyEventToUser e2 (applyEventToUser e1 u)))
    ∧ (((handle_webhook false e2 (handle_webhook false e1 d).2).2.findEvent e1.id).map
        StripeEvent.processed = some true)
    ∧ (((handle_webhook false e2 (handle_webhook false e1 d).2).2.findEvent e2.id).map
        StripeEvent.processed = some true) := by
  have hne' : (e1.id == e2.id) = false := by
    simp [hne]
  have h1 : handle_webhook false e1 d =
      (WResult.retTrue,
        { users := setUserList d.users uid (applyEventToUser e1 u)
          stripe_events := d.stripe_events ++ [storedRow d e1] }) := by
    rw [handle_webhook_fresh_ok e1 d hf1, webhookUsers_of_target d uid u e1 ht1 hm1 hu]
  rw [h1]
  have huA : (({ users := setUserList d.users uid (applyEventToUser e1 u)
                 stripe_events := d.stripe_events ++ [storedRow d e1] } : DB)).findUser uid =
      some (applyEventToUser e1 u) := by
    simp only [DB.findUser] at hu ⊢
    exact findUser_after_set d.users uid (applyEventToUser e1 u) u hu
  have hfA : (({ users := setUserList d.users uid (applyEventToUser e1 u)
                 stripe_events := d.stripe_events ++ [storedRow d e1] } : DB)).findEvent e2.id =
      none := by
    simp only [DB.findEvent] at hf2 ⊢
    rw [List.find?_append, hf2]
    simp [storedRow, hne']
  have h2 : handle_webhook false e2
      ({ users := setUserList d.users uid (applyEventToUser e1 u)
         stripe_events := d.stripe_events ++ [storedRow d e1] } : DB) =
      (WResult.retTrue,
        { users := setUserList (setUserList d.users uid (applyEventToUser e1 u)) uid
            (applyEventToUser e2 (applyEventToUser e1 u))
          stripe_events := (d.stripe_events ++ [storedRow d e1]) ++
            [storedRow ({ users := setUserList d.users uid (applyEventToUser e1 u)
                          stripe_events := d.stripe_events ++ [storedRow d e1] } : DB) e2] }) := by
    rw [handle_webhook_fresh_ok e2 _ hfA, webhookUsers_of_target _ uid
      (applyEventToUser e1 u) e2 ht2 hm2 huA]
  rw [h2]
  refine ⟨?_, ?_, ?_⟩
  · simp only [DB.findUser] at huA ⊢
    exact findUser_after_set _ uid (applyEventToUser e2 (applyEventToUser e1 u))
      (applyEventToUser e1 u) huA
  · simp only [DB.findEvent] at hf1 ⊢
    rw [List.find?_append, List.find?_append, hf1]
    simp [storedRow]
  · simp only [DB.findEvent] at hf2 ⊢
    rw [List.find?_append, List.find?_append, hf2]
    simp [storedRow, hne']

/-- Witness for the amended C1 theorem at the concrete fixtures: the
final account carries `e2Upd`'s period end `50` and both rows are
stored processed. -/
theorem webhook_receipt_order_wins_witness :
    ((handle_webhook false e2Upd (handle_webhook false e1Upd dTrial).2).2.findUser "u1" =
      some (applyEventToUser e2Upd (applyEventToUser e1Upd (register_user 0))))
    ∧ (((handle_webhook false e2Upd (handle_webhook false e1Upd dTrial).2).2.findEvent
        "evt_1").map StripeEvent.processed = some true)
    ∧ (((handle_webhook false e2Upd (handle_webhook false e1Upd dTrial).2).2.findEvent
        "evt_2").map StripeEvent.processed = some true) :=
  webhook_receipt_order_wins dTrial "u1" (register_user 0) e1Upd e2Upd
    (by decide) (by decide) (by decide) (by decide) (by decide)
    (by decide) (by decide) (by decide)

/-- Claim C5 counterexample: processing `e1Upd` against `dTrial` with
the event-store commit failing raises, yet the account `u1` has already
changed (the mutation was committed separately, first), and no event
row exists — the claim's "the Account Record is left unchanged" is
false. -/
theorem webhook_atomicity_counterexample :
    (handle_webhook true e1Upd dTrial).1 = WResult.raised
    ∧ (handle_webhook true e1Upd dTrial).2.findUser "u1" ≠ dTrial.findUser "u1"
    ∧ (handle_webhook true e1Upd dTrial).2.findEvent "evt_1" = none := by
  decide

/-- Claim C5 as amended: the account mutation and the event-store write
are two separate commits, mutation first. If the store write fails the
handler raises with the users table already exactly as a fully
successful run would leave it (the mutation is not rolled back) and no
event row stored; the half that does hold is that an event row is never
written `processed = true` without the mutation having been committed
(the success path stores the row processed over the same mutated users
table). -/
theorem webhook_mutation_commits_first (e : WebhookEvent) (d : DB)
    (hf : d.findEvent e.id = none) :
    (handle_webhook true e d).1 = WResult.raised
    ∧ (handle_webhook true e d).2.users = (handle_webhook false e d).2.users
    ∧ (handle_webhook true e d).2.stripe_events = d.stripe_events
    ∧ ((handle_webhook false e d).2.findEvent e.id).map StripeEvent.processed = some true := by
  rw [handle_webhook_fresh_storeFail e d hf, handle_webhook_fresh_ok e d hf]
  refine ⟨rfl, rfl, rfl, ?_⟩
  simp only [DB.findEvent] at hf ⊢
  rw [List.find?_append, hf]
  simp [storedRow]

/-- Witness for the amended C5 theorem at the concrete fixtures. -/
theorem webhook_mutation_commits_first_witness :
    (handle_webhook true e1Upd dTrial).1 = WResult.raised
    ∧ (handle_webhook true e1Upd dTrial).2.users =
        (handle_webhook false e1Upd dTrial).2.users
    ∧ (handle_webhook true e1Upd dTrial).2.stripe_events = dTrial.stripe_events
    ∧ ((handle_webhook false e1Upd dTrial).2.findEvent "evt_1").map
        StripeEvent.processed = some true :=
  webhook_mutation_commits_first e1Upd dTrial (by decide)

/-- Claim C6 counterexample: applying `eDel` to the account with stored
end date `77` sets the status to `cancelled` but leaves the end date at
`77`; since the event is processed at a time other than `77` (the
handler reads no clock at all in this branch), the claimed
`subscriptionEnd = now` assignment does not happen. -/
theorem subscription_deleted_counterexample :
    (handle_webhook false eDel dActive).2.findUser "u1" =
      some { uActive77 with subscription_status := "cancelled" }
    ∧ ({ uActive77 with subscription_status := "cancelled" } : User).subscription_end_date
        = some 77
    ∧ uActive77.subscription_end_date = some 77 := by
  decide

/-- Claim C6 as amended: a `customer.subscription.deleted` event sets
`subscription_status = 'cancelled'` and changes nothing else — in
particular `subscription_end_date` keeps its previous value instead of
being set to the processing time (contrast `cancel_subscription` in
auth.py lines 97-98, which does set it). -/
theorem subscription_deleted_amended (d : DB) (uid : String) (u : User) (e : WebhookEvent)
    (hu : d.findUser uid = some u)
    (ht : e.eventType = "customer.subscription.deleted")
    (hm : e.data_object.metadata_user_id = some uid)
    (hf : d.findEvent e.id = none) :
    (handle_webhook false e d).2.findUser uid =
      some { u with subscription_status := "cancelled" } := by
  have ht' : handledType e.eventType = true := by
    simp [handledType, ht]
  have happ : applyEventToUser e u = { u with subscription_status := "cancelled" } := by
    simp [applyEventToUser, ht]
  rw [handle_webhook_fresh_ok e d hf]
  show ((webhookUsers d e).find? (fun p => p.1 == uid)).map Prod.snd = _
  rw [webhookUsers_of_target d uid u e ht' hm hu, happ]
  exact findUser_after_set d.users uid _ u hu

/-- Witness for the amended C6 theorem at the concrete fixtures. -/
theorem subscription_deleted_amended_witness :
    (handle_webhook false eDel dActive).2.findUser "u1" =
      some { uActive77 with subscription_status := "cancelled" } :=
  subscription_deleted_amended dActive "u1" uActive77 eDel
    (by decide) (by decide) (by decide) (by decide)

/-- Claim C8 confirmed: an authentic event that matches no user (its
`metadata['user_id']` is missing or resolves to no account) is stored
with `user_id = None` and `processed = True`, no account is mutated,
and the handler returns `True` — a soft success, not an exception. -/
theorem correlation_miss_soft_success (e : WebhookEvent) (d : DB)
    (hf : d.findEvent e.id = none)
    (hm : ∀ uid, e.data_object.metadata_user_id = some uid → d.findUser uid = none) :
    (handle_webhook false e d).1 = WResult.retTrue
    ∧ (handle_webhook false e d).2.users = d.users
    ∧ (handle_webhook false e d).2.stripe_events =
        d.stripe_events ++
          [{ stripe_event_id := e.id
             event_type := e.eventType
             user_id := none
             event_data := e.data_object
             processed := true }] := by
  have hl : lookupTarget d e = none := lookupTarget_of_miss d e hm
  rw [handle_webhook_fresh_ok e d hf]
  refine ⟨rfl, ?_, ?_⟩
  · simp [webhookUsers, hl]
  · simp [storedRow, hl]

/-- Witness for the C8 theorem at a ghost-referenced event. -/
theorem correlation_miss_soft_success_witness :
    (handle_webhook false eGhost dTrial).1 = WResult.retTrue
    ∧ (handle_webhook false eGhost dTrial).2.users = dTrial.users
    ∧ (handle_webhook false eGhost dTrial).2.stripe_events =
        dTrial.stripe_events ++
          [{ stripe_event_id := "evt_ghost"
             event_type := "invoice.payment_succeeded"
             user_id := none
             event_data := eGhost.data_object
             processed := true }] :=
  correlation_miss_soft_success eGhost dTrial (by decide)
    (fun uid h => by
      injection h with h2
      rw [← h2]
      decide)

/-- The one mutation of the counter either leaves it alone or, only
when it was below `1`, raises it by exactly one. -/
theorem consume_step_cases (u : User) :
    (tryConsumePreview u).2.free_preview_used = u.free_preview_used ∨
      ((tryConsumePreview u).2.free_preview_used = u.free_preview_used + 1
        ∧ u.free_preview_used < 1) := by
  unfold tryConsumePreview can_use_preview
  by_cases h1 : u.free_preview_used < 1 <;>
    by_cases h2 : u.subscription_status == "trial" <;>
      simp [h1, h2]

/-- Each analysis endpoint persists either the unchanged user row (403,
400, or rollback) or exactly the guarded-increment row. -/
theorem analyze_user_cases (cf fp : Bool) (u : User) (now : Nat) :
    ((analyze_all_bets cf u now).2.1 = u ∨
      (analyze_all_bets cf u now).2.1 = (tryConsumePreview u).2)
    ∧ ((analyze_specific_bet cf fp u now).2.1 = u ∨
        (analyze_specific_bet cf fp u now).2.1 = (tryConsumePreview u).2) := by
  unfold analyze_all_bets analyze_specific_bet tryConsumePreview
  by_cases ha : has_analysis_access u now <;> cases cf <;> cases fp <;>
    by_cases hc : can_use_preview u <;> simp [ha, hc]

/-- Claim C7 confirmed: starting from a counter in `{0, 1}` (the
registration default is `0`), every operation of the embedded system —
the guarded preview increment of the analysis endpoints, a full run of
either endpoint, and any webhook account mutation — keeps the counter
in `{0, 1}` and never decrements it; the webhook mutation does not
touch it at all. -/
theorem preview_counter_invariant (u : User) (e : WebhookEvent) (cf fp : Bool) (now : Nat)
    (h : u.free_preview_used = 0 ∨ u.free_preview_used = 1) :
    ((tryConsumePreview u).2.free_preview_used = 0 ∨
      (tryConsumePreview u).2.free_preview_used = 1)
    ∧ u.free_preview_used ≤ (tryConsumePreview u).2.free_preview_used
    ∧ (applyEventToUser e u).free_preview_used = u.free_preview_used
    ∧ ((analyze_all_bets cf u now).2.1.free_preview_used = 0 ∨
        (analyze_all_bets cf u now).2.1.free_preview_used = 1)
    ∧ u.free_preview_used ≤ (analyze_all_bets cf u now).2.1.free_preview_used
    ∧ ((analyze_specific_bet cf fp u now).2.1.free_preview_used = 0 ∨
        (analyze_specific_bet cf fp u now).2.1.free_preview_used = 1)
    ∧ u.free_preview_used ≤ (analyze_specific_bet cf fp u now).2.1.free_preview_used
    ∧ (register_user now).free_preview_used = 0 := by
  have hstep := consume_step_cases u
  have hends := analyze_user_cases cf fp u now
  have happ : (applyEventToUser e u).free_preview_used = u.free_preview_used := by
    unfold applyEventToUser
    by_cases h1 : e.eventType == "customer.subscription.updated" <;>
      by_cases h2 : e.eventType == "customer.subscription.deleted" <;>
        by_cases h3 : e.eventType == "invoice.payment_succeeded" <;>
          simp [h1, h2, h3]
  refine ⟨?_, ?_, happ, ?_, ?_, ?_, ?_, rfl⟩
  · rcases hstep with hs | ⟨hs, hlt⟩ <;> simp only [hs] <;> omega
  · rcases hstep with hs | ⟨hs, hlt⟩ <;> simp only [hs] <;> omega
  · rcases hends.1 with he | he <;> rcases hstep with hs | ⟨hs, hlt⟩ <;>
      simp only [he, hs] <;> omega
  · rcases hends.1 with he | he <;> rcases hstep with hs | ⟨hs, hlt⟩ <;>
      simp only [he, hs] <;> omega
  · rcases hends.2 with he | he <;> rcases hstep with hs | ⟨hs, hlt⟩ <;>
      simp only [he, hs] <;> omega
  · rcases hends.2 with he | he <;> rcases hstep with hs | ⟨hs, hlt⟩ <;>
      simp only [he, hs] <;> omega

/-- Witness for the C7 theorem at a fresh trial account: the counter
stays in `{0, 1}` across a preview consumption. -/
theorem preview_counter_invariant_witness :
    (tryConsumePreview (register_user 0)).2.free_preview_used = 0 ∨
      (tryConsumePreview (register_user 0)).2.free_preview_used = 1 :=
  (preview_counter_invariant (register_user 0) e1Upd false false 0 (Or.inl rfl)).1

/-- Claim C10 confirmed: in both analysis endpoints the persisted
counter moves exactly when a `BetAnalysis` row is persisted on an
eligible preview (one commit covers both); when the commit fails the
rollback leaves the persisted user row identical to the original and
no analysis row exists, so the increment is never persisted alone. -/
theorem preview_increment_atomic (cf fp : Bool) (u : User) (now : Nat) :
    (((analyze_all_bets cf u now).2.1.free_preview_used ≠ u.free_preview_used) ↔
      ((analyze_all_bets cf u now).2.2 = true ∧ can_use_preview u = true))
    ∧ (cf = true →
        (analyze_all_bets cf u now).2.1 = u ∧ (analyze_all_bets cf u now).2.2 = false)
    ∧ (((analyze_specific_bet cf fp u now).2.1.free_preview_used ≠ u.free_preview_used) ↔
        ((analyze_specific_bet cf fp u now).2.2 = true ∧ can_use_preview u = true))
    ∧ (cf = true →
        (analyze_specific_bet cf fp u now).2.1 = u
          ∧ (analyze_specific_bet cf fp u now).2.2 = false) := by
  unfold analyze_all_bets analyze_specific_bet
  by_cases ha : has_analysis_access u now <;> cases cf <;> cases fp <;>
    by_cases hc : can_use_preview u <;> simp [ha, hc]

/-- Witness for the C10 theorem: a failed commit persists neither the
increment nor an analysis row. -/
theorem preview_increment_atomic_witness :
    (analyze_all_bets true (register_user 0) 0).2.1 = register_user 0
      ∧ (analyze_all_bets true (register_user 0) 0).2.2 = false :=
  (preview_increment_atomic true true (register_user 0) 0).2.1 rfl

end WagerWise
